import Mathlib

/-!
# Verification of the chess game backend (game/views.py)

A shallow embedding of the Django view module of the repository.  The module
itself contains no chess logic: it parses JSON request bodies, dispatches to a
subprocess chess engine through the python chess library, reshapes the result
into JSON responses, and stores a dict in the session.  We embed:

* JSON values (`JValue`) and Python dict lookups (`jget`, dict `.get`);
* the python chess library as an oracle (`ChessLib`): board parsing, legal
  move listing, SAN rendering, capture and check tests, move application;
* the engine as an oracle (`Engine`): the `engine.analyse` call, returning a
  list of info dicts as the library does when `multipv` is passed explicitly;
* each helper (`_stockfish_top_moves`, `_stockfish_best_move`,
  `_stockfish_eval_move`), each dispatcher (`get_engine_analysis`,
  `get_engine_best_move`, `get_single_move_eval`), and each request handler.

Python exceptions are modelled with `PyResult`: code inside a `try` block
threads them to the matching `except` arm; an exception with no matching
`except` becomes `HResult.raised`, which the web framework surfaces as a 500.

One library fact is load bearing and is recorded once here: in the python
chess library, `SimpleEngine.analyse(board, limit, multipv=k)` with an
explicit `multipv` argument returns a LIST of info dictionaries, never a bare
dictionary (its docstring: analysing multiple root moves "will return a list
of at most multipv dictionaries rather than just a single info dictionary";
the implementation returns `analysis.info if multipv is None else
analysis.multipv`, and `multipv` is a `List[InfoDict]`).  Consequently
`info["pv"]` in `_stockfish_best_move` raises `TypeError` (string subscript
on a list) and `info.get("score")` in `_stockfish_eval_move` raises
`AttributeError` (lists have no `get`); both are swallowed by the broad
`except` clauses of those functions.  This is `pyListStrAccess` below.
-/

/-- JSON values, the payloads of request and response bodies.  Objects are
association lists in insertion order, as built by the Python dict literals in
the source.  Floats are not needed by any claim and are omitted. -/
inductive JValue where
  | null
  | bool (b : Bool)
  | int (n : Int)
  | str (s : String)
  | arr (xs : List JValue)
  | obj (kvs : List (String × JValue))

/-- `d.get(k)` on a Python dict: the value at the first matching key. -/
def jget (d : List (String × JValue)) (k : String) : Option JValue :=
  match d with
  | [] => none
  | (k2, v) :: rest => if k2 == k then some v else jget rest k

/-- Python `x == "lit"` where `x` is an arbitrary decoded JSON value: true
only when `x` is that very string. -/
def jeqStr (v : JValue) (s : String) : Bool :=
  match v with
  | .str t => t == s
  | _ => false

/-- Python truthiness of a decoded JSON value (`if not fen: ...`). -/
def pyTruthy : JValue → Bool
  | .null => false
  | .bool b => b
  | .int n => !(n == 0)
  | .str s => !(s == "")
  | .arr xs => !xs.isEmpty
  | .obj kvs => !kvs.isEmpty

/-- Truthiness of the `move` variable of `ai_move`: `None` and the empty
string are falsy. -/
def pyTruthyStrOpt : Option String → Bool
  | none => false
  | some s => !(s == "")

/-- `Option Int` rendered into a JSON field (`None` becomes `null`). -/
def optIntJ : Option Int → JValue
  | none => .null
  | some n => .int n

/-- Outcome of a Python expression inside a `try` block. -/
inductive PyResult (α : Type) where
  | ok (a : α)
  | exn (msg : String)

/-- `int(x)` on a decoded JSON value, as used for the `depth` field. -/
def pyInt : JValue → PyResult Int
  | .int n => .ok n
  | .bool b => .ok (if b then 1 else 0)
  | .str s =>
      match s.toInt? with
      | some n => .ok n
      | none => .exn "ValueError"
  | _ => .exn "TypeError"

/-- The side to move. -/
inductive Color where
  | white
  | black
deriving DecidableEq

/-- An engine score as the python chess library represents it: either a
centipawn value or a distance to mate, relative to some point of view. -/
inductive EScore where
  | cp (n : Int)
  | mate (k : Int)
deriving DecidableEq

/-- Negation of a relative score (`-score` in the library). -/
def EScore.neg : EScore → EScore
  | .cp n => .cp (-n)
  | .mate k => .mate (-k)

/-- `score.score(mate_score=m)`: centipawns unchanged; a mate in `k > 0`
becomes `m - k`, a mate against in `k <= 0` becomes `-m - k`. -/
def EScore.scoreMs (s : EScore) (m : Int) : Int :=
  match s with
  | .cp n => n
  | .mate k => if k > 0 then m - k else -m - k

/-- `score.mate()`: the mate distance, or `None` for a centipawn score. -/
def EScore.mateDist : EScore → Option Int
  | .cp _ => none
  | .mate k => some k

/-- `PovScore`: a relative score together with the side it is relative to
(for an analysis info, the side to move of the analysed board). -/
structure PovScore where
  relative : EScore
  turn : Color
deriving DecidableEq

/-- `povscore.pov(color)`: the relative score seen from `color`. -/
def PovScore.pov (s : PovScore) (c : Color) : EScore :=
  if s.turn = c then s.relative else s.relative.neg

/-- One info dictionary of an `engine.analyse` result: the principal
variation (as coordinate moves) and the optional score.  A missing `pv` key
is modelled as the empty variation, which the consuming loop treats the same
way. -/
structure AnalysisInfo where
  pv : List String
  score : Option PovScore
deriving DecidableEq

/-- The engine oracle: `engine.analyse(board, Limit(depth=d), multipv=m)`,
keyed by the FEN of the analysed board.  Per the library API it yields a list
of info dictionaries (or raises). -/
structure Engine where
  analyse : String → Int → Nat → PyResult (List AnalysisInfo)

/-- Subscripting or calling `.get` on the LIST returned by `analyse` with an
explicit `multipv` raises (`TypeError` for `info["pv"]`, `AttributeError` for
`info.get(...)`); there is no value this expression can produce. -/
def pyListStrAccess (infos : List AnalysisInfo) (key : String) :
    PyResult Empty :=
  .exn ("TypeError: list accessed with string key " ++ key ++
    (match infos with | _ => ""))

/-- The python chess library as an oracle over FEN strings and coordinate
moves.  `boardOk f` says `chess.Board(f)` succeeds; `parseMoveOk m` says
`chess.Move.from_uci(m)` succeeds; `pushFen f m` is the FEN after playing
`m`; the remaining fields mirror the library calls the views make. -/
structure ChessLib where
  boardOk : String → Bool
  parseMoveOk : String → Bool
  legalMoves : String → List String
  san : String → String → String
  isCapture : String → String → Bool
  pushFen : String → String → String
  isCheck : String → Bool
  fromSq : String → String
  toSq : String → String
  turn : String → Color

/-- Outcome of `chess.Board(x)` on a decoded JSON value: `ValueError` for an
invalid FEN string, a different exception type (`AttributeError` or
`TypeError`) for a value that is not a string at all.  The distinction
matters because `legal_moves` catches only `ValueError`. -/
inductive BoardParse where
  | ok (fen : String)
  | valueError
  | typeError

def boardParseJ (lib : ChessLib) : JValue → BoardParse
  | .str s => if lib.boardOk s then .ok s else .valueError
  | _ => .typeError

/-- One entry of the list built by `_stockfish_top_moves` (and by the
`random` branch of `get_engine_analysis`). -/
structure MoveEntry where
  uci : String
  san : String
  score : Option Int
  mate : Option Int
  fromSq : String
  toSq : String
deriving DecidableEq

/-- The dict literal of `_stockfish_top_moves` lines 58 to 65: keys `uci`,
`san`, `score`, `mate`, `from`, `to` in that order — and no others. -/
def MoveEntry.toDict (e : MoveEntry) : List (String × JValue) :=
  [("uci", .str e.uci),
   ("san", .str e.san),
   ("score", optIntJ e.score),
   ("mate", optIntJ e.mate),
   ("from", .str e.fromSq),
   ("to", .str e.toSq)]

/-- The body of the `for info in infos` loop of `_stockfish_top_moves`:
skip an info with no principal variation, otherwise build the entry.
`score` is `info.get("score").pov(board.turn).score(mate_score=100000)` and
`mate` is `info.get("score").pov(board.turn).mate()`, both `None` when the
info has no score. -/
def infoEntry (lib : ChessLib) (fen : String) (info : AnalysisInfo) :
    Option MoveEntry :=
  match info.pv with
  | [] => none
  | mv :: _ =>
      some { uci := mv
             san := lib.san fen mv
             score := match info.score with
               | some ps => some ((ps.pov (lib.turn fen)).scoreMs 100000)
               | none => none
             mate := match info.score with
               | some ps => (ps.pov (lib.turn fen)).mateDist
               | none => none
             fromSq := lib.fromSq mv
             toSq := lib.toSq mv }

/-- `_stockfish_top_moves(fen, depth, multipv)`: empty when the engine cannot
be opened, when the FEN does not parse, or when `analyse` raises; otherwise
one entry per info that has a principal variation, in the order the engine
reported them.  No sorting, no truncation, no rank field. -/
def stockfishTopMoves (lib : ChessLib) (eng : Option Engine) (fen : String)
    (depth : Int) (multipv : Nat) : List MoveEntry :=
  match eng with
  | none => []
  | some e =>
      if lib.boardOk fen then
        match e.analyse fen depth multipv with
        | .exn _ => []
        | .ok infos => infos.filterMap (infoEntry lib fen)
      else []

/-- `_stockfish_best_move(fen, depth)`: opens the engine, parses the board,
calls `analyse(..., multipv=1)` and then reads `info["pv"][0]`.  Because the
`analyse` result is a list (see `pyListStrAccess`), that read raises
`TypeError`, the broad `except` fires, and the function returns
`(None, None)` on every path. -/
def stockfishBestMove (lib : ChessLib) (eng : Option Engine) (fenJ : JValue)
    (depth : Int) : Option String × Option PovScore :=
  match eng with
  | none => (none, none)
  | some e =>
      match boardParseJ lib fenJ with
      | .ok fen =>
          match e.analyse fen depth 1 with
          | .exn _ => (none, none)
          | .ok infos =>
              match pyListStrAccess infos "pv" with
              | .exn _ => (none, none)
              | .ok em => em.elim
      | .valueError => (none, none)
      | .typeError => (none, none)

/-- `_stockfish_eval_move(fen, move_uci, depth)`: rejects an unopenable
engine, an unparsable FEN or move, and an illegal move with `(None, None)`;
otherwise plays the move and calls `analyse(..., multipv=1)` on the resulting
position.  The subsequent `info.get("score")` is a `.get` on a list (see
`pyListStrAccess`), so it raises `AttributeError`, the broad `except` fires,
and this path also returns `(None, None)`. -/
def stockfishEvalMove (lib : ChessLib) (eng : Option Engine)
    (fenJ muJ : JValue) (depth : Int) : Option Int × Option Int :=
  match eng with
  | none => (none, none)
  | some e =>
      match boardParseJ lib fenJ with
      | .ok fen =>
          match muJ with
          | .str mu =>
              if lib.parseMoveOk mu then
                if mu ∈ lib.legalMoves fen then
                  match e.analyse (lib.pushFen fen mu) depth 1 with
                  | .exn _ => (none, none)
                  | .ok infos =>
                      match pyListStrAccess infos "get" with
                      | .exn _ => (none, none)
                      | .ok em => em.elim
                else (none, none)
              else (none, none)
          | _ => (none, none)
      | .valueError => (none, none)
      | .typeError => (none, none)

/-- `get_engine_analysis(fen, engine_type, depth, multipv)`: dispatch on the
engine name.  `stockfish` and every unknown name go to
`_stockfish_top_moves`; `random` lists the first `multipv` legal moves with
made up scores from `random.randint` (the `rng` oracle, indexed by loop
position).  The `random` branch constructs `chess.Board(fen)` outside any
`try`, so an invalid FEN raises out of the function. -/
def getEngineAnalysis (lib : ChessLib) (eng : Option Engine)
    (rng : Nat → Int) (fen : String) (etJ : JValue) (depth : Int)
    (multipv : Nat) : PyResult (List MoveEntry) :=
  if jeqStr etJ "stockfish" then
    .ok (stockfishTopMoves lib eng fen depth multipv)
  else if jeqStr etJ "random" then
    if lib.boardOk fen then
      .ok (((lib.legalMoves fen).take multipv).enum.map (fun p =>
        { uci := p.2
          san := lib.san fen p.2
          score := some (rng p.1)
          mate := none
          fromSq := lib.fromSq p.2
          toSq := lib.toSq p.2 }))
    else .exn "ValueError"
  else
    .ok (stockfishTopMoves lib eng fen depth multipv)

/-- `get_engine_best_move(fen, engine_type, depth)`: the `stockfish` branch
returns the best move with its point of view score in centipawns when
`_stockfish_best_move` produced one; the `random` branch picks a random legal
move with no score (raising out of the function on an invalid FEN); the
default branch for unknown names calls `_stockfish_best_move` and drops the
score. -/
def getEngineBestMove (lib : ChessLib) (eng : Option Engine)
    (choice : List String → String) (fenJ etJ : JValue) (depth : Int) :
    PyResult (Option String × Option Int) :=
  if jeqStr etJ "stockfish" then
    match stockfishBestMove lib eng fenJ depth with
    | (some best, score) =>
        let scoreCp : Option Int :=
          match score, fenJ with
          | some ps, .str f => some ((ps.pov (lib.turn f)).scoreMs 100000)
          | some ps, _ => some ((ps.pov .white).scoreMs 100000)
          | none, _ => none
        .ok (some best, scoreCp)
    | (none, _) => .ok (none, none)
  else if jeqStr etJ "random" then
    match boardParseJ lib fenJ with
    | .ok fen =>
        let legal := lib.legalMoves fen
        if legal.isEmpty then .ok (none, none)
        else .ok (some (choice legal), none)
    | .valueError => .exn "ValueError"
    | .typeError => .exn "AttributeError"
  else
    match stockfishBestMove lib eng fenJ depth with
    | (some best, _) => .ok (some best, none)
    | (none, _) => .ok (none, none)

/-- `get_single_move_eval(fen, move_uci, engine_type, depth)`: the
`stockfish` branch and the default branch both call
`_stockfish_eval_move`. -/
def getSingleMoveEval (lib : ChessLib) (eng : Option Engine)
    (fenJ muJ etJ : JValue) (depth : Int) : Option Int × Option Int :=
  if jeqStr etJ "stockfish" then stockfishEvalMove lib eng fenJ muJ depth
  else stockfishEvalMove lib eng fenJ muJ depth

/-- A request body after `json.loads`: either the decode failed
(`json.JSONDecodeError`) or it produced a JSON object. -/
inductive Body where
  | malformed
  | parsed (data : List (String × JValue))

/-- A handler outcome: a `JsonResponse` with a status code and JSON object
body, or an exception that escaped the handler (which the web framework
turns into a 500 response). -/
inductive HResult where
  | resp (status : Nat) (body : List (String × JValue))
  | raised (msg : String)

/-- The `ai_move` view: body parse, engine dispatch, then — whenever the
engine produced no move — a fallback that picks a random legal move and still
answers 200 with status `ok`; 400 with status `error` only when the position
has no legal move at all; `except Exception` turns any other failure
(including an invalid FEN reaching the fallback `chess.Board(fen)`) into a
500 with an `error` field. -/
def aiMove (lib : ChessLib) (eng : Option Engine)
    (choice : List String → String) (body : Body) : HResult :=
  match body with
  | .malformed => .resp 400 [("error", .str "Invalid JSON")]
  | .parsed data =>
      let fenJ := (jget data "fen").getD (.str "")
      let ec := (jget data "engine").getD (.str "stockfish")
      match getEngineBestMove lib eng choice fenJ ec 12 with
      | .exn m => .resp 500 [("error", .str m)]
      | .ok (mv0, scoreCp) =>
          if pyTruthyStrOpt mv0 then
            .resp 200 [("status", .str "ok"),
                       ("move", .str (mv0.getD "")),
                       ("engine", ec),
                       ("score_cp", optIntJ scoreCp)]
          else
            match boardParseJ lib fenJ with
            | .ok fen =>
                let legal := lib.legalMoves fen
                let mv1 : Option String :=
                  if legal.isEmpty then mv0 else some (choice legal)
                if pyTruthyStrOpt mv1 then
                  .resp 200 [("status", .str "ok"),
                             ("move", .str (mv1.getD "")),
                             ("engine", ec),
                             ("score_cp", optIntJ scoreCp)]
                else
                  .resp 400 [("status", .str "error"),
                             ("message", .str "No legal move")]
            | .valueError => .resp 500 [("error", .str "ValueError")]
            | .typeError => .resp 500 [("error", .str "AttributeError")]

/-- The canned persona texts of `coach_analysis` and the
`dialog_map.get(persona, balanced)` lookup. -/
def dialogFor : JValue → String
  | .str "aggressive" =>
      "Hit fast and hard. Open lines, seek tactics, and keep initiative."
  | .str "defensive" =>
      "Stabilize the position. Cover weaknesses, trade down pressure, and neutralize threats."
  | _ =>
      "Healthy development and central control. Improve pieces, avoid unnecessary risks."

/-- The `coach_analysis` view.  Only `json.JSONDecodeError` is caught: a bad
`depth` field or an invalid or missing FEN raises out of the handler (the
default for a missing FEN is the empty string, which `chess.Board` rejects).
With engine entries it answers 200 `ok`; otherwise 200 `fallback` built from
the legal move list. -/
def coachAnalysis (lib : ChessLib) (eng : Option Engine) (body : Body) :
    HResult :=
  match body with
  | .malformed => .resp 400 [("error", .str "Invalid JSON")]
  | .parsed data =>
      let fenJ := (jget data "fen").getD (.str "")
      let persona := (jget data "persona").getD (.str "balanced")
      match pyInt ((jget data "depth").getD (.int 10)) with
      | .exn m => .raised m
      | .ok depth =>
          match boardParseJ lib fenJ with
          | .valueError => .raised "ValueError"
          | .typeError => .raised "AttributeError"
          | .ok fen =>
              match stockfishTopMoves lib eng fen depth 3 with
              | [] =>
                  let legalSan := ((lib.legalMoves fen).map (lib.san fen)).take 3
                  .resp 200 [("status", .str "fallback"),
                             ("message", .str "Stockfish not available; fallback suggestions."),
                             ("evaluation", .null),
                             ("best_move",
                               match legalSan with
                               | [] => .null
                               | s :: _ => .str s),
                             ("recommended", .arr (legalSan.map (fun s => .obj [("san", .str s)]))),
                             ("dialog", .str "Engine unavailable. Playing it safe; develop pieces and control the center."),
                             ("persona", persona)]
              | best :: rest =>
                  let recommended := (best :: rest).map (fun e =>
                    JValue.obj [("san", .str (lib.san fen e.uci)),
                                ("uci", .str e.uci),
                                ("score_cp", optIntJ e.score),
                                ("mate", optIntJ e.mate)])
                  .resp 200 [("status", .str "ok"),
                             ("evaluation", optIntJ best.score),
                             ("best_move", recommended.headD .null),
                             ("recommended", .arr recommended),
                             ("dialog", .str (dialogFor persona)),
                             ("persona", persona)]

/-- The `evaluate_position` view: always 200 `ok` once the body is valid
JSON; the evaluation comes from `_stockfish_best_move` (and is therefore
always `null`, see `stockfishBestMove`), rendered from the white point of
view in the dead branch. -/
def evaluatePosition (lib : ChessLib) (eng : Option Engine) (body : Body) :
    HResult :=
  match body with
  | .malformed => .resp 400 [("error", .str "Invalid JSON")]
  | .parsed data =>
      let fenJ := (jget data "fen").getD (.str "")
      let bs := stockfishBestMove lib eng fenJ 8
      let evalCp : JValue :=
        match bs.2 with
        | some ps => .int ((ps.pov .white).scoreMs 100000)
        | none => .null
      .resp 200 [("status", .str "ok"),
                 ("evaluation", evalCp),
                 ("win_probability", .null),
                 ("received_fen", fenJ)]

/-- The `save_game` view: overwrites the single session key with the three
fields of the body (missing `fen` and `pgn` become `null`, missing `history`
becomes the empty list) and answers `{status: saved}`.  The pair is the
response together with the session content after the request. -/
def saveGame (body : Body)
    (session : Option (List (String × JValue))) :
    HResult × Option (List (String × JValue)) :=
  match body with
  | .malformed => (.resp 400 [("error", .str "Invalid JSON")], session)
  | .parsed data =>
      (.resp 200 [("status", .str "saved")],
       some [("fen", (jget data "fen").getD .null),
             ("pgn", (jget data "pgn").getD .null),
             ("history", (jget data "history").getD (.arr []))])

/-- The `load_game` view: returns whatever the session holds, verbatim, with
Python truthiness deciding between `found` and `not_found`. -/
def loadGame (session : Option (List (String × JValue))) : HResult :=
  match session with
  | some gs =>
      if pyTruthy (.obj gs) then
        .resp 200 [("status", .str "found"), ("game_state", .obj gs)]
      else
        .resp 200 [("status", .str "not_found"), ("game_state", .null)]
  | none => .resp 200 [("status", .str "not_found"), ("game_state", .null)]

/-- One element of the `legal_moves` response list: the dict literal of
lines 502 to 509, with `is_capture` computed on the original board and
`is_check` on the board after pushing the move (which the source then pops,
restoring the board — in this functional embedding every entry is computed
from the original `fen`). -/
def legalEntry (lib : ChessLib) (fen mv : String) : List (String × JValue) :=
  [("from", .str (lib.fromSq mv)),
   ("to", .str (lib.toSq mv)),
   ("san", .str (lib.san fen mv)),
   ("uci", .str mv),
   ("is_capture", .bool (lib.isCapture fen mv)),
   ("is_check", .bool (lib.isCheck (lib.pushFen fen mv)))]

/-- The `legal_moves` view: 400 when the FEN is missing or fails to parse
with `ValueError`; otherwise one entry per legal move of the position plus
the engine ranking as a separate `top_moves` field. -/
def legalMovesHandler (lib : ChessLib) (eng : Option Engine)
    (rng : Nat → Int) (body : Body) : HResult :=
  match body with
  | .malformed => .resp 400 [("error", .str "Invalid JSON")]
  | .parsed data =>
      let fenJ := (jget data "fen").getD .null
      let etJ := (jget data "engine").getD (.str "stockfish")
      if !(pyTruthy fenJ) then .resp 400 [("error", .str "FEN is required")]
      else
        match boardParseJ lib fenJ with
        | .valueError => .resp 400 [("error", .str "Invalid FEN")]
        | .typeError => .raised "AttributeError"
        | .ok fen =>
            match getEngineAnalysis lib eng rng fen etJ 10 20 with
            | .exn m => .raised m
            | .ok tops =>
                .resp 200 [("status", .str "ok"),
                           ("legal_moves", .arr ((lib.legalMoves fen).map
                             (fun mv => .obj (legalEntry lib fen mv)))),
                           ("top_moves", .arr (tops.map
                             (fun e => .obj e.toDict)))]

/-- The `evaluate_move` view: 400 when `fen` or `move_uci` is missing or
falsy, otherwise always 200 `ok` carrying whatever `get_single_move_eval`
returned (null and null, see `stockfishEvalMove`). -/
def evaluateMoveHandler (lib : ChessLib) (eng : Option Engine)
    (body : Body) : HResult :=
  match body with
  | .malformed => .resp 400 [("error", .str "Invalid JSON")]
  | .parsed data =>
      let fenJ := (jget data "fen").getD .null
      let muJ := (jget data "move_uci").getD .null
      let etJ := (jget data "engine").getD (.str "stockfish")
      if !(pyTruthy fenJ) || !(pyTruthy muJ) then
        .resp 400 [("error", .str "FEN and move_uci required")]
      else
        let sm := getSingleMoveEval lib eng fenJ muJ etJ 8
        .resp 200 [("status", .str "ok"),
                   ("score_cp", optIntJ sm.1),
                   ("mate", optIntJ sm.2),
                   ("move_uci", muJ)]

/-- `_stockfish_best_move` returns `(None, None)` on every path: the engine
may be missing, the FEN may fail to parse, `analyse` may raise — and when
`analyse` succeeds, its result is a list so `info["pv"]` raises `TypeError`
into the broad `except`. -/
theorem stockfishBestMove_pair_eq (lib : ChessLib) (eng : Option Engine)
    (fenJ : JValue) (depth : Int) :
    stockfishBestMove lib eng fenJ depth = (none, none) := by
  unfold stockfishBestMove
  cases eng with
  | none => rfl
  | some e => repeat first | rfl | split

/-- `_stockfish_eval_move` returns `(None, None)` on every path: the guarded
rejections, and — when the move is legal and analysed — the `.get` on the
list result raising `AttributeError` into the broad `except`. -/
theorem stockfishEvalMove_pair_eq (lib : ChessLib) (eng : Option Engine)
    (fenJ muJ : JValue) (depth : Int) :
    stockfishEvalMove lib eng fenJ muJ depth = (none, none) := by
  unfold stockfishEvalMove
  cases eng with
  | none => rfl
  | some e => repeat first | rfl | split

/-- Both dispatch branches of `get_single_move_eval` call the same
function. -/
theorem getSingleMoveEval_pair_eq (lib : ChessLib) (eng : Option Engine)
    (fenJ muJ etJ : JValue) (depth : Int) :
    getSingleMoveEval lib eng fenJ muJ etJ depth = (none, none) := by
  unfold getSingleMoveEval
  split <;> exact stockfishEvalMove_pair_eq lib eng fenJ muJ depth

/-- The bare kings position used for the concrete instances: white king a1,
black king h8, white to move.  Its legal moves are the three white king
steps; none captures or gives check, and the position after any of them has
black to move. -/
def fen1 : String := "7k/8/8/8/8/8/8/K7 w - - 0 1"

/-- A concrete chess library oracle, truthful on `fen1`: only `fen1` parses
as a board, its legal moves are the three king moves with their real SAN and
successor FENs, and `e2e4` parses as a move but is not legal here. -/
def libC : ChessLib :=
  { boardOk := fun s => s == fen1
    parseMoveOk := fun m =>
      m == "a1a2" || m == "a1b1" || m == "a1b2" || m == "e2e4"
    legalMoves := fun s => if s == fen1 then ["a1a2", "a1b1", "a1b2"] else []
    san := fun _ m =>
      if m == "a1a2" then "Ka2" else
      if m == "a1b1" then "Kb1" else
      if m == "a1b2" then "Kb2" else m
    isCapture := fun _ _ => false
    pushFen := fun f m =>
      if f == fen1 && m == "a1a2" then "7k/8/8/8/8/8/K7/8 b - - 1 1" else
      if f == fen1 && m == "a1b1" then "7k/8/8/8/8/8/8/1K6 b - - 1 1" else
      if f == fen1 && m == "a1b2" then "7k/8/8/8/8/8/1K6/8 b - - 1 1" else
      f ++ " " ++ m
    isCheck := fun _ => false
    fromSq := fun m => m.take 2
    toSq := fun m => (m.drop 2).take 2
    turn := fun s => if s == fen1 then .white else .black }

/-- One possible draw of `random.choice`: the first element. -/
def choiceC : List String → String := fun l => l.headD ""

/-- One possible stream of `random.randint(-50, 50)` draws. -/
def rngC : Nat → Int := fun _ => 0

/-- A concrete engine oracle that reports two candidate lines for `fen1`
(best first, as a real engine would) and nothing elsewhere. -/
def engC : Engine :=
  { analyse := fun f _ _ =>
      if f == fen1 then
        .ok [{ pv := ["a1b1"], score := some { relative := .cp 10, turn := .white } },
             { pv := ["a1a2"], score := some { relative := .cp 4, turn := .white } }]
      else .ok [] }

/-- A concrete engine oracle whose two reported lines for `fen1` are not in
best first order, and which reports both lines regardless of the `multipv`
argument. -/
def engU : Engine :=
  { analyse := fun f _ _ =>
      if f == fen1 then
        .ok [{ pv := ["a1b1"], score := some { relative := .cp 4, turn := .white } },
             { pv := ["a1a2"], score := some { relative := .cp 10, turn := .white } }]
      else .ok [] }

/-- Claim C4: saving a body with fields fen F, pgn P, history H and then
loading within the same session returns exactly those three fields, with no
validation or transformation on load. -/
theorem c4_save_load_round_trip (F P H : JValue)
    (prev : Option (List (String × JValue))) :
    (saveGame (.parsed [("fen", F), ("pgn", P), ("history", H)]) prev).1 =
      .resp 200 [("status", .str "saved")] ∧
    loadGame (saveGame (.parsed [("fen", F), ("pgn", P), ("history", H)]) prev).2 =
      .resp 200 [("status", .str "found"),
                 ("game_state", .obj [("fen", F), ("pgn", P), ("history", H)])] :=
  ⟨rfl, rfl⟩

/-- Claim C5: a request body that is not valid JSON yields a 400 response
with an `error` field from every POST handler, never a 500: each handler
catches the JSON decode failure first. -/
theorem c5_malformed_json_gives_400 (lib : ChessLib) (eng : Option Engine)
    (choice : List String → String) (rng : Nat → Int)
    (sess : Option (List (String × JValue))) :
    aiMove lib eng choice .malformed =
      .resp 400 [("error", .str "Invalid JSON")] ∧
    coachAnalysis lib eng .malformed =
      .resp 400 [("error", .str "Invalid JSON")] ∧
    evaluatePosition lib eng .malformed =
      .resp 400 [("error", .str "Invalid JSON")] ∧
    (saveGame .malformed sess).1 =
      .resp 400 [("error", .str "Invalid JSON")] ∧
    legalMovesHandler lib eng rng .malformed =
      .resp 400 [("error", .str "Invalid JSON")] ∧
    evaluateMoveHandler lib eng .malformed =
      .resp 400 [("error", .str "Invalid JSON")] :=
  ⟨rfl, rfl, rfl, rfl, rfl, rfl⟩

/-- With the engine unavailable, the `stockfish` dispatch branch of
`get_engine_best_move` yields `(None, None)` without raising. -/
theorem getEngineBestMove_stockfish_none (lib : ChessLib)
    (choice : List String → String) (fenJ : JValue) (d : Int) :
    getEngineBestMove lib none choice fenJ (.str "stockfish") d =
      .ok (none, none) := by
  simp [getEngineBestMove, jeqStr, stockfishBestMove_pair_eq]

/-- Claim C1, counterexample: with the engine unavailable (the backend
analysis call fails) and the valid position `fen1`, the `ai_move` handler
answers 200 with status `ok` and a substituted fallback move — not a 503 and
not an error status. -/
theorem c1_backend_failure_counterexample :
    aiMove libC none choiceC (.parsed [("fen", JValue.str fen1)]) =
      .resp 200 [("status", .str "ok"),
                 ("move", .str "a1a2"),
                 ("engine", .str "stockfish"),
                 ("score_cp", JValue.null)] := rfl

/-- Claim C1, amended: when the backend analysis call fails (engine
unavailable), `_stockfish_top_moves` reports the empty list rather than an
error, and `ai_move` substitutes a random legal move and answers 200 `ok`
with a null score; only a position without legal moves produces a non-2xx
answer, the 400 `No legal move` response.  No 503 is produced. -/
theorem c1_backend_failure_fallback (lib : ChessLib)
    (choice : List String → String) (data : List (String × JValue))
    (fen : String) (d : Int) (m : Nat)
    (hf : jget data "fen" = some (.str fen))
    (he : jget data "engine" = none)
    (hb : lib.boardOk fen = true)
    (hc : lib.legalMoves fen ≠ [] →
      (choice (lib.legalMoves fen) == "") = false) :
    stockfishTopMoves lib none fen d m = [] ∧
    aiMove lib none choice (.parsed data) =
      (if (lib.legalMoves fen).isEmpty then
        .resp 400 [("status", .str "error"),
                   ("message", .str "No legal move")]
      else
        .resp 200 [("status", .str "ok"),
                   ("move", .str (choice (lib.legalMoves fen))),
                   ("engine", .str "stockfish"),
                   ("score_cp", JValue.null)]) := by
  refine ⟨rfl, ?_⟩
  cases hE : (lib.legalMoves fen).isEmpty with
  | true =>
      simp [aiMove, hf, he, getEngineBestMove_stockfish_none, boardParseJ,
        hb, hE, pyTruthyStrOpt]
  | false =>
      have hnil : lib.legalMoves fen ≠ [] := by
        intro h
        rw [h] at hE
        simp at hE
      simp [aiMove, hf, he, getEngineBestMove_stockfish_none, boardParseJ,
        hb, hE, pyTruthyStrOpt, hc hnil, optIntJ]

/-- Witness for the amended C1 at the concrete instance. -/
theorem c1_backend_failure_fallback_witness :
    stockfishTopMoves libC none fen1 12 8 = [] ∧
    aiMove libC none choiceC (.parsed [("fen", JValue.str fen1)]) =
      (if (libC.legalMoves fen1).isEmpty then
        .resp 400 [("status", .str "error"),
                   ("message", .str "No legal move")]
      else
        .resp 200 [("status", .str "ok"),
                   ("move", .str (choiceC (libC.legalMoves fen1))),
                   ("engine", .str "stockfish"),
                   ("score_cp", JValue.null)]) :=
  c1_backend_failure_fallback libC choiceC [("fen", JValue.str fen1)]
    fen1 12 8 rfl rfl rfl (fun _ => rfl)

/-- Non-strict descending order on the scores of a candidate list. -/
def sortedDescBool : List Int → Bool
  | [] => true
  | [_] => true
  | a :: b :: rest => decide (b ≤ a) && sortedDescBool (b :: rest)

/-- Non-strict ascending order on the scores of a candidate list. -/
def sortedAscBool : List Int → Bool
  | [] => true
  | [_] => true
  | a :: b :: rest => decide (a ≤ b) && sortedAscBool (b :: rest)

/-- The ordering claimed for `analyze`: best first for the side to move —
descending evaluations when white is to move, ascending when black is. -/
def bestFirstBool (lib : ChessLib) (fen : String) (es : List MoveEntry) :
    Bool :=
  match lib.turn fen with
  | .white => sortedDescBool (es.filterMap (fun e => e.score))
  | .black => sortedAscBool (es.filterMap (fun e => e.score))

/-- The 1-based rank field the claim asserts every entry carries. -/
def hasRank (e : MoveEntry) : Bool := (jget e.toDict "rank").isSome

/-- The candidate list inside an analysis result (empty on an exception). -/
def analysisListD : PyResult (List MoveEntry) → List MoveEntry
  | .ok l => l
  | .exn _ => []

/-- Claim C2, counterexample: for the valid position `fen1` with requested
count 1, `get_engine_analysis` relays the two backend lines verbatim — the
output is not in best-first order for the side to move (4 before 10 with
white, the maximizing side, to move), carries no rank field on any entry,
and is not truncated to the requested count. -/
theorem c2_sort_rank_truncate_counterexample :
    analysisListD (getEngineAnalysis libC (some engU) rngC fen1
        (.str "stockfish") 12 1) =
      [{ uci := "a1b1", san := "Kb1", score := some 4, mate := none,
         fromSq := "a1", toSq := "b1" },
       { uci := "a1a2", san := "Ka2", score := some 10, mate := none,
         fromSq := "a1", toSq := "a2" }] ∧
    bestFirstBool libC fen1 (analysisListD (getEngineAnalysis libC
        (some engU) rngC fen1 (.str "stockfish") 12 1)) = false ∧
    (analysisListD (getEngineAnalysis libC (some engU) rngC fen1
        (.str "stockfish") 12 1)).all hasRank = false ∧
    ¬ ((analysisListD (getEngineAnalysis libC (some engU) rngC fen1
        (.str "stockfish") 12 1)).length ≤ 1) ∧
    libC.turn fen1 = Color.white := by
  refine ⟨by decide, by decide, by decide, by decide, by decide⟩

/-- Claim C2, amended: for a valid position, the `stockfish` branch of
`get_engine_analysis` returns one entry per backend info that has a
principal variation, in exactly the order the backend reported them — no
re-sorting, no truncation beyond what the backend itself applied to the
`multipv` argument, and no rank field on any entry. -/
theorem c2_backend_order_no_rank (lib : ChessLib) (e : Engine)
    (rng : Nat → Int) (fen : String) (d : Int) (m : Nat)
    (infos : List AnalysisInfo)
    (hb : lib.boardOk fen = true)
    (ha : e.analyse fen d m = .ok infos) :
    getEngineAnalysis lib (some e) rng fen (.str "stockfish") d m =
      .ok (infos.filterMap (infoEntry lib fen)) ∧
    (infos.filterMap (infoEntry lib fen)).map MoveEntry.uci =
      infos.filterMap (fun i => i.pv.head?) ∧
    ∀ ent ∈ infos.filterMap (infoEntry lib fen),
      jget ent.toDict "rank" = none := by
  refine ⟨?_, ?_, ?_⟩
  · simp [getEngineAnalysis, jeqStr, stockfishTopMoves, hb, ha]
  · clear ha
    induction infos with
    | nil => rfl
    | cons i rest ih =>
        cases hpv : i.pv with
        | nil => simpa [List.filterMap_cons, infoEntry, hpv] using ih
        | cons mv tl => simpa [List.filterMap_cons, infoEntry, hpv] using ih
  · intro ent _
    rfl

/-- Witness for the amended C2 at the concrete instance. -/
theorem c2_backend_order_no_rank_witness :
    getEngineAnalysis libC (some engC) rngC fen1 (.str "stockfish") 10 8 =
      .ok (([{ pv := ["a1b1"],
               score := some { relative := .cp 10, turn := .white } },
             { pv := ["a1a2"],
               score := some { relative := .cp 4, turn := .white } }] :
          List AnalysisInfo).filterMap (infoEntry libC fen1)) ∧
    (([{ pv := ["a1b1"],
         score := some { relative := .cp 10, turn := .white } },
       { pv := ["a1a2"],
         score := some { relative := .cp 4, turn := .white } }] :
        List AnalysisInfo).filterMap (infoEntry libC fen1)).map
        MoveEntry.uci =
      ([{ pv := ["a1b1"],
          score := some { relative := .cp 10, turn := .white } },
        { pv := ["a1a2"],
          score := some { relative := .cp 4, turn := .white } }] :
        List AnalysisInfo).filterMap (fun i => i.pv.head?) ∧
    ∀ ent ∈ ([{ pv := ["a1b1"],
                score := some { relative := .cp 10, turn := .white } },
              { pv := ["a1a2"],
                score := some { relative := .cp 4, turn := .white } }] :
        List AnalysisInfo).filterMap (infoEntry libC fen1),
      jget ent.toDict "rank" = none :=
  c2_backend_order_no_rank libC engC rngC fen1 10 8 _ rfl rfl

/-- Modelled from the spec: the `evaluateMove` contract of section 4.1 —
calls the backend once, linearly scans its candidate list for an exact match
on the coordinate-form move string, and returns the evaluation of that
candidate in centipawns, or (absent, absent) if no candidate matches; no
mate distance on this path. -/
def evaluateMoveSpecContract (cands : List MoveEntry) (moveUci : String) :
    Option Int × Option Int :=
  match cands.find? (fun e => e.uci == moveUci) with
  | some e => (e.score, none)
  | none => (none, none)

/-- Claim C3, counterexample: for the valid position `fen1` and the legal
move `a1b1`, the backend candidate list for the position does contain a
matching candidate with evaluation 10 centipawns, yet `_stockfish_eval_move`
returns (absent, absent): the source never scans the candidate list of the
original position — it plays the move and analyses the successor, and that
path degrades to (absent, absent). -/
theorem c3_no_candidate_scan_counterexample :
    stockfishEvalMove libC (some engC) (.str fen1) (.str "a1b1") 10 =
      (none, none) ∧
    evaluateMoveSpecContract
        (stockfishTopMoves libC (some engC) fen1 10 8) "a1b1" =
      (some 10, none) ∧
    "a1b1" ∈ libC.legalMoves fen1 := by
  refine ⟨by decide, by decide, by decide⟩

/-- Claim C3, amended: `evaluateMove` does not scan the backend candidate
list.  It parses the move, rejects an unparsable or illegal move with
(absent, absent), and otherwise plays the move and analyses the resulting
position — and because that `analyse` call with `multipv=1` returns a list
that the source then reads as a dictionary, the broad `except` fires and the
operation returns (absent, absent) on every input. -/
theorem c3_eval_move_always_absent (lib : ChessLib) (eng : Option Engine)
    (fenJ muJ : JValue) (depth : Int) :
    stockfishEvalMove lib eng fenJ muJ depth = (none, none) :=
  stockfishEvalMove_pair_eq lib eng fenJ muJ depth

/-- Claim C6, counterexample: the `evaluate_position` handler takes a
position, yet a valid JSON body with the position string absent yields a
200 success response (status `ok`, null evaluation), not a 400. -/
theorem c6_missing_position_counterexample :
    evaluatePosition libC none (.parsed []) =
      .resp 200 [("status", .str "ok"), ("evaluation", JValue.null),
                 ("win_probability", JValue.null),
                 ("received_fen", .str "")] := rfl

/-- Claim C6, amended: validation of the position is per handler, not
uniform.  `legal_moves` answers 400 for a missing position and for a
position string the library rejects; `evaluate_move` answers 400 for a
missing position; but `evaluate_position` answers 200 `ok` with a null
evaluation when the position is missing, and `coach_analysis` lets the
resulting `ValueError` escape (the framework turns it into a 500). -/
theorem c6_position_validation_per_handler (lib : ChessLib)
    (eng : Option Engine) (rng : Nat → Int) :
    (∀ data, jget data "fen" = none →
      legalMovesHandler lib eng rng (.parsed data) =
        .resp 400 [("error", .str "FEN is required")]) ∧
    (∀ data f, jget data "fen" = some (.str f) → (f == "") = false →
      lib.boardOk f = false →
      legalMovesHandler lib eng rng (.parsed data) =
        .resp 400 [("error", .str "Invalid FEN")]) ∧
    (∀ data, jget data "fen" = none →
      evaluateMoveHandler lib eng (.parsed data) =
        .resp 400 [("error", .str "FEN and move_uci required")]) ∧
    (∀ data, jget data "fen" = none →
      evaluatePosition lib eng (.parsed data) =
        .resp 200 [("status", .str "ok"), ("evaluation", JValue.null),
                   ("win_probability", JValue.null),
                   ("received_fen", .str "")]) ∧
    (∀ data, jget data "fen" = none → jget data "depth" = none →
      lib.boardOk "" = false →
      coachAnalysis lib eng (.parsed data) = .raised "ValueError") := by
  refine ⟨?_, ?_, ?_, ?_, ?_⟩
  · intro data h
    simp [legalMovesHandler, h, pyTruthy]
  · intro data f h h2 hb
    simp [legalMovesHandler, h, pyTruthy, h2, boardParseJ, hb]
  · intro data h
    simp [evaluateMoveHandler, h, pyTruthy]
  · intro data h
    simp [evaluatePosition, h, stockfishBestMove_pair_eq]
  · intro data h hd hb
    simp [coachAnalysis, h, hd, pyInt, boardParseJ, hb]

/-- Witness for the amended C6 at a concrete instance. -/
theorem c6_position_validation_per_handler_witness :
    evaluatePosition libC none (.parsed [("pgn", JValue.str "1. e4")]) =
      .resp 200 [("status", .str "ok"), ("evaluation", JValue.null),
                 ("win_probability", JValue.null),
                 ("received_fen", .str "")] :=
  (c6_position_validation_per_handler libC none rngC).2.2.2.1
    [("pgn", JValue.str "1. e4")] rfl

/-- Claim C7: the move evaluation path never reports a mate distance — the
mate component of `get_single_move_eval` is always `None`, and the `mate`
field of any `evaluate_move` response is either absent (on the 400 bodies)
or `null`. -/
theorem c7_mate_always_null (lib : ChessLib) (eng : Option Engine)
    (fenJ muJ etJ : JValue) (d : Int) (body : Body) (st : Nat)
    (b : List (String × JValue))
    (h : evaluateMoveHandler lib eng body = .resp st b) :
    (getSingleMoveEval lib eng fenJ muJ etJ d).2 = none ∧
    (jget b "mate" = none ∨ jget b "mate" = some JValue.null) := by
  constructor
  · rw [getSingleMoveEval_pair_eq]
  · cases body with
    | malformed =>
        rw [show evaluateMoveHandler lib eng .malformed =
            .resp 400 [("error", .str "Invalid JSON")] from rfl] at h
        injection h with h1 h2
        subst h2
        left
        rfl
    | parsed data =>
        by_cases hg : (!(pyTruthy ((jget data "fen").getD .null)) ||
            !(pyTruthy ((jget data "move_uci").getD .null))) = true
        · rw [show evaluateMoveHandler lib eng (.parsed data) =
              .resp 400 [("error", .str "FEN and move_uci required")] from
            by simp [evaluateMoveHandler, hg]] at h
          injection h with h1 h2
          subst h2
          left
          rfl
        · rw [show evaluateMoveHandler lib eng (.parsed data) =
              .resp 200 [("status", .str "ok"),
                         ("score_cp", JValue.null),
                         ("mate", JValue.null),
                         ("move_uci", (jget data "move_uci").getD .null)] from
            by simp [evaluateMoveHandler, hg, getSingleMoveEval_pair_eq,
              optIntJ]] at h
          injection h with h1 h2
          subst h2
          right
          rfl

/-- Witness for C7 at a concrete instance: a well formed request for a legal
move still carries `mate: null`. -/
theorem c7_mate_always_null_witness :
    (getSingleMoveEval libC none (.str fen1) (.str "a1b1")
        (.str "stockfish") 8).2 = none ∧
    (jget [("status", JValue.str "ok"), ("score_cp", JValue.null),
           ("mate", JValue.null), ("move_uci", JValue.str "a1b1")] "mate" =
        none ∨
     jget [("status", JValue.str "ok"), ("score_cp", JValue.null),
           ("mate", JValue.null), ("move_uci", JValue.str "a1b1")] "mate" =
        some JValue.null) :=
  c7_mate_always_null libC none (.str fen1) (.str "a1b1")
    (.str "stockfish") 8
    (.parsed [("fen", JValue.str fen1), ("move_uci", JValue.str "a1b1")])
    200
    [("status", JValue.str "ok"), ("score_cp", JValue.null),
     ("mate", JValue.null), ("move_uci", JValue.str "a1b1")] rfl

/-- Claim C8: for a valid position the `legal_moves` handler answers with
exactly one entry per legal move of the position — the entry list is the
image of the legal move list, so nothing is omitted and nothing is added,
and the separate `top_moves` ranking drops no entry — and each entry carries
the capture flag of the move on the original board and the check flag of the
position after the move (the source plays and reverts the move; in this
functional embedding every entry is a function of the original position). -/
theorem c8_legal_moves_complete (lib : ChessLib) (eng : Option Engine)
    (rng : Nat → Int) (data : List (String × JValue)) (fen : String)
    (tops : List MoveEntry)
    (h1 : jget data "fen" = some (.str fen))
    (h2 : (fen == "") = false)
    (hb : lib.boardOk fen = true)
    (ha : getEngineAnalysis lib eng rng fen
      ((jget data "engine").getD (.str "stockfish")) 10 20 = .ok tops) :
    legalMovesHandler lib eng rng (.parsed data) =
      .resp 200 [("status", .str "ok"),
                 ("legal_moves", .arr ((lib.legalMoves fen).map
                   (fun mv => .obj (legalEntry lib fen mv)))),
                 ("top_moves", .arr (tops.map (fun e => .obj e.toDict)))] ∧
    ((lib.legalMoves fen).map
        (fun mv => JValue.obj (legalEntry lib fen mv))).length =
      (lib.legalMoves fen).length ∧
    ∀ mv, jget (legalEntry lib fen mv) "uci" = some (.str mv) ∧
      jget (legalEntry lib fen mv) "is_capture" =
        some (.bool (lib.isCapture fen mv)) ∧
      jget (legalEntry lib fen mv) "is_check" =
        some (.bool (lib.isCheck (lib.pushFen fen mv))) := by
  refine ⟨?_, by simp, fun mv => ⟨rfl, rfl, rfl⟩⟩
  simp [legalMovesHandler, h1, pyTruthy, h2, boardParseJ, hb, ha]

/-- Witness for C8 at the concrete instance. -/
theorem c8_legal_moves_complete_witness :
    legalMovesHandler libC none rngC (.parsed [("fen", JValue.str fen1)]) =
      .resp 200 [("status", .str "ok"),
                 ("legal_moves", .arr ((libC.legalMoves fen1).map
                   (fun mv => .obj (legalEntry libC fen1 mv)))),
                 ("top_moves", .arr (([] : List MoveEntry).map
                   (fun e => .obj e.toDict)))] :=
  (c8_legal_moves_complete libC none rngC [("fen", JValue.str fen1)] fen1 []
    rfl rfl rfl rfl).1

/-- Claim C9: for an engine name outside the known set, the default branch
of `get_engine_best_move` falls back to the stockfish backend: it returns
the same move component as the explicit `stockfish` call on the same inputs,
and its score component is always `None` — the default branch discards the
evaluation the `stockfish` branch would report. -/
theorem c9_unknown_engine_same_move_null_score (lib : ChessLib)
    (eng : Option Engine) (choice : List String → String)
    (fenJ etJ : JValue) (d : Int) (p q : Option String × Option Int)
    (h1 : jeqStr etJ "stockfish" = false)
    (h2 : jeqStr etJ "random" = false)
    (hp : getEngineBestMove lib eng choice fenJ etJ d = .ok p)
    (hq : getEngineBestMove lib eng choice fenJ (.str "stockfish") d =
      .ok q) :
    p.1 = q.1 ∧ p.2 = none := by
  have e1 : getEngineBestMove lib eng choice fenJ etJ d = .ok (none, none) := by
    simp [getEngineBestMove, h1, h2, stockfishBestMove_pair_eq]
  have e2 : getEngineBestMove lib eng choice fenJ (.str "stockfish") d =
      .ok (none, none) := by
    simp [getEngineBestMove, jeqStr, stockfishBestMove_pair_eq]
  rw [e1] at hp
  rw [e2] at hq
  injection hp with hp1
  injection hq with hq1
  rw [← hp1, ← hq1]
  exact ⟨rfl, rfl⟩

/-- Witness for C9 at a concrete instance (engine name `my_neural_net`). -/
theorem c9_unknown_engine_witness :
    ((none, none) : Option String × Option Int).1 =
      ((none, none) : Option String × Option Int).1 ∧
    ((none, none) : Option String × Option Int).2 = none :=
  c9_unknown_engine_same_move_null_score libC none choiceC (.str fen1)
    (.str "my_neural_net") 12 (none, none) (none, none) rfl rfl rfl rfl

/-- Claim C10, counterexample: the empty move string fails to parse as
coordinate notation, and the position `fen1` is valid, yet the
`evaluate_move` handler answers 400 (the truthiness guard fires), not the
claimed 200 with status `ok`. -/
theorem c10_empty_move_counterexample :
    libC.boardOk fen1 = true ∧
    evaluateMoveHandler libC none
        (.parsed [("fen", JValue.str fen1), ("move_uci", JValue.str "")]) =
      .resp 400 [("error", .str "FEN and move_uci required")] :=
  ⟨rfl, rfl⟩

/-- Claim C10, amended: for a valid position and a NONEMPTY move string that
is unparsable as coordinate notation or not legal in the position, the
`evaluate_move` handler answers 200 with status `ok` and null `score_cp` and
`mate` — indistinguishable from engine unavailability; only empty or missing
fields produce the 400. -/
theorem c10_illegal_move_ok_response (lib : ChessLib) (eng : Option Engine)
    (data : List (String × JValue)) (fen mu : String)
    (h1 : jget data "fen" = some (.str fen))
    (h2 : (fen == "") = false)
    (hb : lib.boardOk fen = true)
    (h3 : jget data "move_uci" = some (.str mu))
    (h4 : (mu == "") = false)
    (h5 : lib.parseMoveOk mu = false ∨ mu ∉ lib.legalMoves fen) :
    evaluateMoveHandler lib eng (.parsed data) =
      .resp 200 [("status", .str "ok"), ("score_cp", JValue.null),
                 ("mate", JValue.null), ("move_uci", .str mu)] := by
  simp [evaluateMoveHandler, h1, h3, pyTruthy, h2, h4,
    getSingleMoveEval_pair_eq, optIntJ]

/-- Witness for the amended C10: `e2e4` parses but is illegal in `fen1`. -/
theorem c10_illegal_move_ok_witness :
    evaluateMoveHandler libC none
        (.parsed [("fen", JValue.str fen1),
                  ("move_uci", JValue.str "e2e4")]) =
      .resp 200 [("status", .str "ok"), ("score_cp", JValue.null),
                 ("mate", JValue.null), ("move_uci", JValue.str "e2e4")] :=
  c10_illegal_move_ok_response libC none
    [("fen", JValue.str fen1), ("move_uci", JValue.str "e2e4")]
    fen1 "e2e4" rfl rfl rfl rfl rfl (Or.inr (by decide))
